import Mathlib

/-!
A shallow embedding of the two source modules of this repository:

* `custom_components/plugwise/smile_helpers.py`
* `custom_components/plugwise_usb/__init__.py`

Python dicts are embedded as insertion-ordered association lists with
first-binding lookup; `dict.get` returns an `Option`, raising subscript
access is an `Except Unit` (the error value standing for the raised
`KeyError`/`TypeError`).  Each definition carries a note tying it to the
source line(s) it embeds.
-/

namespace Plugwise

/-- Python `d.get(key)` on a dict `d`: the value of the first binding of
`key` in the association list, `none` when the key is absent. -/
def dget {β : Type} : List (String × β) → String → Option β
  | [], _ => none
  | (k, v) :: rest, key => if k == key then some v else dget rest key

/-- Python `d[key]` on a dict `d`: `Except.error ()` embeds the raised
`KeyError` when the key is absent. -/
def ditem {β : Type} (m : List (String × β)) (key : String) : Except Unit β :=
  match dget m key with
  | some v => Except.ok v
  | none => Except.error ()

@[simp]
theorem dget_nil {β : Type} (key : String) : dget ([] : List (String × β)) key = none := rfl

@[simp]
theorem dget_cons {β : Type} (k key : String) (v : β) (rest : List (String × β)) :
    dget ((k, v) :: rest) key = if k == key then some v else dget rest key := rfl

/-- Modelled from the spec: the icon identifier constants (`COOLING_ICON`,
`FLAME_ICON`, ...) are imported from `const.py`, which is not among the
sources; only their identities matter to `icon_selector`, so they are
embedded as a datatype of distinct icon identifiers. -/
inductive IconId
  | COOLING_ICON
  | FLAME_ICON
  | FLOW_OFF_ICON
  | FLOW_ON_ICON
  | HEATING_ICON
  | IDLE_ICON
  | NO_NOTIFICATION_ICON
  | NOTIFICATION_ICON
deriving DecidableEq, Repr

/-- The dict literal `selector` built inside `icon_selector`
(smile_helpers.py lines 17-30), in source order. -/
def selector (state : Bool) : List (String × IconId) :=
  [("cooling", IconId.COOLING_ICON),
   ("dhw-heating", IconId.FLAME_ICON),
   ("dhw and cooling", IconId.COOLING_ICON),
   ("dhw and heating", IconId.HEATING_ICON),
   ("heating", IconId.HEATING_ICON),
   ("idle", IconId.IDLE_ICON),
   ("dhw_state", if state then IconId.FLOW_ON_ICON else IconId.FLOW_OFF_ICON),
   ("flame_state", if state then IconId.FLAME_ICON else IconId.IDLE_ICON),
   ("slave_boiler_state", if state then IconId.FLAME_ICON else IconId.IDLE_ICON),
   ("plugwise_notification",
     if state then IconId.NOTIFICATION_ICON else IconId.NO_NOTIFICATION_ICON)]

/-- `icon_selector(arg, state)` (smile_helpers.py lines 15-31):
`selector.get(arg)`. -/
def icon_selector (arg : String) (state : Bool) : Option IconId :=
  dget (selector state) arg

/-- The slice of the gateway data consulted by `get_preset_temp`:
`data["presets"]`, a mapping preset name → (heating setpoint, cooling
setpoint).  Setpoint values are left polymorphic: the function never
inspects them. -/
structure PresetData (α : Type) where
  presets : List (String × (α × α))

/-- `get_preset_temp(preset, cooling_active, data)` (smile_helpers.py lines
34-38): `data["presets"].get(preset)[1]` when `cooling_active`, else
`...[0]`.  A `none` result embeds the exception raised by subscripting the
`None` that `.get` returns for an absent preset. -/
def get_preset_temp {α : Type} (preset : String) (cooling_active : Bool)
    (data : PresetData α) : Option α :=
  if cooling_active then
    (dget data.presets preset).map (fun pair => pair.2)
  else
    (dget data.presets preset).map (fun pair => pair.1)

/-- C8: for every recognized device-state category (cooling, dhw-heating,
dhw and cooling, dhw and heating, heating, idle), `icon_selector` returns
the same fixed icon for `state = true` and `state = false`: the `state`
argument is ignored on these categories. -/
theorem icon_selector_device_state_fixed :
    ∀ state : Bool,
      icon_selector "cooling" state = some IconId.COOLING_ICON ∧
      icon_selector "dhw-heating" state = some IconId.FLAME_ICON ∧
      icon_selector "dhw and cooling" state = some IconId.COOLING_ICON ∧
      icon_selector "dhw and heating" state = some IconId.HEATING_ICON ∧
      icon_selector "heating" state = some IconId.HEATING_ICON ∧
      icon_selector "idle" state = some IconId.IDLE_ICON := by
  intro state
  cases state <;> exact ⟨rfl, rfl, rfl, rfl, rfl, rfl⟩

/-- C9: for every category argument outside the ten keys of the selector
table and either boolean state, `icon_selector` returns `none` (the
total-function embedding shows no exception is raised). -/
theorem icon_selector_unknown_none :
    ∀ (arg : String) (state : Bool),
      arg ∉ ["cooling", "dhw-heating", "dhw and cooling", "dhw and heating",
        "heating", "idle", "dhw_state", "flame_state", "slave_boiler_state",
        "plugwise_notification"] →
      icon_selector arg state = none := by
  intro arg state h
  simp only [List.mem_cons, List.not_mem_nil, or_false, not_or] at h
  obtain ⟨h1, h2, h3, h4, h5, h6, h7, h8, h9, h10⟩ := h
  cases state <;>
    simp [icon_selector, selector, beq_iff_eq,
      Ne.symm h1, Ne.symm h2, Ne.symm h3, Ne.symm h4, Ne.symm h5,
      Ne.symm h6, Ne.symm h7, Ne.symm h8, Ne.symm h9, Ne.symm h10]

/-- Witness for C9 at the concrete unrecognized category `"bogus"`. -/
theorem icon_selector_unknown_none_witness :
    icon_selector "bogus" true = none :=
  icon_selector_unknown_none "bogus" true (by decide)

/-- C3: `get_preset_temp` returns the second (cooling) component of the
preset's pair when `cooling_active` is true and the first (heating)
component otherwise; a preset absent from the table makes the lookup fail
(propagates, does not default); on the table `{"away": (10, 25)}` it
returns `10` for `cooling_active = false` and `25` for
`cooling_active = true`. -/
theorem get_preset_temp_spec :
    (∀ (α : Type) (data : PresetData α) (preset : String) (pair : α × α),
        dget data.presets preset = some pair →
          get_preset_temp preset true data = some pair.2 ∧
          get_preset_temp preset false data = some pair.1) ∧
    (∀ (α : Type) (data : PresetData α) (preset : String) (b : Bool),
        dget data.presets preset = none →
          get_preset_temp preset b data = none) ∧
    get_preset_temp "away" false ⟨[("away", ((10 : Int), 25))]⟩ = some 10 ∧
    get_preset_temp "away" true ⟨[("away", ((10 : Int), 25))]⟩ = some 25 := by
  refine ⟨?_, ?_, by decide, by decide⟩
  · intro α data preset pair h
    exact ⟨by simp [get_preset_temp, h], by simp [get_preset_temp, h]⟩
  · intro α data preset b h
    cases b <;> simp [get_preset_temp, h]

/-- Witness for C3: the found-preset and absent-preset hypotheses
discharged on the concrete table `{"away": (10, 25)}`. -/
theorem get_preset_temp_spec_witness :
    get_preset_temp "away" true (⟨[("away", ((10 : Int), 25))]⟩ : PresetData Int)
        = some ((10 : Int), (25 : Int)).2 ∧
    get_preset_temp "missing" true (⟨[("away", ((10 : Int), 25))]⟩ : PresetData Int)
        = none :=
  ⟨(get_preset_temp_spec.1 Int ⟨[("away", (10, 25))]⟩ "away" (10, 25) (by decide)).1,
   get_preset_temp_spec.2.1 Int ⟨[("away", (10, 25))]⟩ "missing" true (by decide)⟩

/-- The per-device attribute slice consulted by `GWThermostat`
(smile_helpers.py lines 86-120); each field embeds one dict key that the
class reads, `none` meaning the key is absent from that device's dict. -/
structure DeviceEntry where
  cooling_active : Option Bool
  cooling_state : Option Bool
  heating_state : Option Bool
  control_state : Option String
deriving DecidableEq, Repr

/-- Element 0 of the gateway data pair: network-wide metadata.  The fields
are the keys read by `GWThermostat.__init__` (`gateway_id`, `heater_id`
via `.get`), `cooling_state`/`heating_state` (`["active_device"]`), and
`GWBinarySensor.extra_state_attributes` (`.get("notifications")`). -/
structure GatewayMeta where
  gateway_id : Option String
  heater_id : Option String
  active_device : Bool
  notifications : Option (List (String × List (String × String)))

/-- The two-element `data` structure handed to `GWThermostat` and
`GWBinarySensor`: `data[0]` is the metadata, `data[1]` the per-device-id
state mapping. -/
structure GatewayData where
  meta : GatewayMeta
  devices : List (String × DeviceEntry)

namespace GWThermostat

/-- `GWThermostat.cooling_active` (smile_helpers.py lines 86-92): when
`heater_id` is not None, `data[1][heater_id].get("cooling_active")`;
otherwise None.  The indexing at `heater_id` can still raise when the id
is absent from `data[1]`. -/
def cooling_active (data : GatewayData) : Except Unit (Option Bool) :=
  match data.meta.heater_id with
  | some heater_id =>
    match ditem data.devices heater_id with
    | Except.ok heater => Except.ok heater.cooling_active
    | Except.error e => Except.error e
  | none => Except.ok none

/-- `GWThermostat.cooling_state` (smile_helpers.py lines 94-106): `none`
result is the Python None; `Except.error` embeds the `KeyError` raised by
`data[1][heater_id]` (also when `heater_id` is None, which is never a
key) or by `data[1][dev_id]` in the `control_state` membership test. -/
def cooling_state (data : GatewayData) (dev_id : String) : Except Unit (Option Bool) :=
  if data.meta.active_device then
    match data.meta.heater_id with
    | none => Except.error ()
    | some heater_id =>
      match ditem data.devices heater_id with
      | Except.error e => Except.error e
      | Except.ok heater =>
        match ditem data.devices dev_id with
        | Except.error e => Except.error e
        | Except.ok dev =>
          match dev.control_state with
          | some control_state => Except.ok (some (control_state == "cooling"))
          | none => Except.ok heater.cooling_state
  else
    Except.ok none

/-- `GWThermostat.heating_state` (smile_helpers.py lines 108-120): like
`cooling_state` with the heater's `heating_state` flag as the default and
string-equality against `"heating"` as the override. -/
def heating_state (data : GatewayData) (dev_id : String) : Except Unit (Option Bool) :=
  if data.meta.active_device then
    match data.meta.heater_id with
    | none => Except.error ()
    | some heater_id =>
      match ditem data.devices heater_id with
      | Except.error e => Except.error e
      | Except.ok heater =>
        match ditem data.devices dev_id with
        | Except.error e => Except.error e
        | Except.ok dev =>
          match dev.control_state with
          | some control_state => Except.ok (some (control_state == "heating"))
          | none => Except.ok heater.heating_state
  else
    Except.ok none

end GWThermostat

/-- C1: in every snapshot whose active-device flag is set, when the
specific device (looked up at its own id, not the heater's) reports
`control_state = "heating"`, `heating_state` is true and `cooling_state`
is false, whatever flags the heater device's own entry carries. -/
theorem control_state_heating_precedence :
    ∀ (data : GatewayData) (dev_id heater_id : String) (heater dev : DeviceEntry),
      data.meta.active_device = true →
      data.meta.heater_id = some heater_id →
      dget data.devices heater_id = some heater →
      dget data.devices dev_id = some dev →
      dev.control_state = some "heating" →
      GWThermostat.heating_state data dev_id = Except.ok (some true) ∧
      GWThermostat.cooling_state data dev_id = Except.ok (some false) := by
  intro data dev_id heater_id heater dev hactive hheater hh hd hc
  constructor <;>
    simp [GWThermostat.heating_state, GWThermostat.cooling_state, ditem,
      hactive, hheater, hh, hd, hc]

/-- Witness for C1: a snapshot whose heater entry reports
`heating_state = False` and `cooling_state = True`, overridden by the
device's `control_state = "heating"`. -/
theorem control_state_heating_precedence_witness :
    GWThermostat.heating_state
        ⟨⟨some "gw", some "h1", true, none⟩,
         [("h1", ⟨some true, some true, some false, none⟩),
          ("t1", ⟨none, none, none, some "heating"⟩)]⟩ "t1"
      = Except.ok (some true) ∧
    GWThermostat.cooling_state
        ⟨⟨some "gw", some "h1", true, none⟩,
         [("h1", ⟨some true, some true, some false, none⟩),
          ("t1", ⟨none, none, none, some "heating"⟩)]⟩ "t1"
      = Except.ok (some false) :=
  control_state_heating_precedence
    ⟨⟨some "gw", some "h1", true, none⟩,
     [("h1", ⟨some true, some true, some false, none⟩),
      ("t1", ⟨none, none, none, some "heating"⟩)]⟩
    "t1" "h1"
    ⟨some true, some true, some false, none⟩
    ⟨none, none, none, some "heating"⟩
    rfl rfl (by decide) (by decide) rfl

/-- C2: in every snapshot whose active-device flag is false,
`cooling_state` and `heating_state` both evaluate to None (not False),
whatever the heater device's entry reports. -/
theorem inactive_device_states_null :
    ∀ (data : GatewayData) (dev_id : String),
      data.meta.active_device = false →
      GWThermostat.cooling_state data dev_id = Except.ok none ∧
      GWThermostat.heating_state data dev_id = Except.ok none := by
  intro data dev_id hactive
  constructor <;>
    simp [GWThermostat.cooling_state, GWThermostat.heating_state, hactive]

/-- Witness for C2: an inactive snapshot whose heater entry reports both
flags as True still yields None for both states. -/
theorem inactive_device_states_null_witness :
    GWThermostat.cooling_state
        ⟨⟨some "gw", some "h1", false, none⟩,
         [("h1", ⟨some true, some true, some true, none⟩)]⟩ "h1"
      = Except.ok none ∧
    GWThermostat.heating_state
        ⟨⟨some "gw", some "h1", false, none⟩,
         [("h1", ⟨some true, some true, some true, none⟩)]⟩ "h1"
      = Except.ok none :=
  inactive_device_states_null
    ⟨⟨some "gw", some "h1", false, none⟩,
     [("h1", ⟨some true, some true, some true, none⟩)]⟩ "h1" rfl

/-- C10: with the active-device flag set, `cooling_state` and
`heating_state` index `data[1]` unguarded at the heater id and at the
device's own id: a None heater id, a heater id absent from `data[1]`, or
a device id absent from `data[1]` each raise a lookup error instead of
returning None — while `cooling_active` guards the None-heater case and
returns None there. -/
theorem active_state_lookup_errors :
    ∀ (data : GatewayData) (dev_id : String),
      data.meta.active_device = true →
      (data.meta.heater_id = none →
        GWThermostat.cooling_state data dev_id = Except.error () ∧
        GWThermostat.heating_state data dev_id = Except.error () ∧
        GWThermostat.cooling_active data = Except.ok none) ∧
      (∀ heater_id, data.meta.heater_id = some heater_id →
        dget data.devices heater_id = none →
        GWThermostat.cooling_state data dev_id = Except.error () ∧
        GWThermostat.heating_state data dev_id = Except.error ()) ∧
      (∀ heater_id heater, data.meta.heater_id = some heater_id →
        dget data.devices heater_id = some heater →
        dget data.devices dev_id = none →
        GWThermostat.cooling_state data dev_id = Except.error () ∧
        GWThermostat.heating_state data dev_id = Except.error ()) := by
  intro data dev_id hactive
  refine ⟨?_, ?_, ?_⟩
  · intro hnone
    refine ⟨?_, ?_, ?_⟩ <;>
      simp [GWThermostat.cooling_state, GWThermostat.heating_state,
        GWThermostat.cooling_active, hactive, hnone]
  · intro heater_id hsome habsent
    constructor <;>
      simp [GWThermostat.cooling_state, GWThermostat.heating_state, ditem,
        hactive, hsome, habsent]
  · intro heater_id heater hsome hh hdev
    constructor <;>
      simp [GWThermostat.cooling_state, GWThermostat.heating_state, ditem,
        hactive, hsome, hh, hdev]

/-- Witness for C10: an active snapshot with no heater id configured makes
both state properties raise while `cooling_active` returns None. -/
theorem active_state_lookup_errors_witness :
    GWThermostat.cooling_state
        ⟨⟨some "gw", none, true, none⟩,
         [("t1", ⟨none, none, none, none⟩)]⟩ "t1" = Except.error () ∧
    GWThermostat.heating_state
        ⟨⟨some "gw", none, true, none⟩,
         [("t1", ⟨none, none, none, none⟩)]⟩ "t1" = Except.error () ∧
    GWThermostat.cooling_active
        ⟨⟨some "gw", none, true, none⟩,
         [("t1", ⟨none, none, none, none⟩)]⟩ = Except.ok none :=
  (active_state_lookup_errors
    ⟨⟨some "gw", none, true, none⟩, [("t1", ⟨none, none, none, none⟩)]⟩
    "t1" rfl).1 rfl

/-- The typed failures the `try` block of `async_setup_entry`
(plugwise_usb/__init__.py lines 111-136) distinguishes, one constructor
per imported `plugwise_usb.exceptions` class. -/
inductive StickError
  | PortError
  | StickInitError
  | NetworkDown
  | CirclePlusError
  | TimeoutException
deriving DecidableEq, Repr

/-- A stick's behaviour over the three blocking lifecycle stages of
`async_setup_entry`: for each stage, `none` means the call returns and
`some e` means it raises `e`.  Later stages are only reached when every
earlier stage returned. -/
structure Stick where
  connect : Option StickError
  initialize_stick : Option StickError
  initialize_circle_plus : Option StickError

/-- The `except` clauses of `async_setup_entry` (lines 117-136): the
handler chosen by the raised exception's class yields (number of
`api_stick.disconnect` calls made, `true` = `ConfigEntryNotReady`
raised).  `PortError` is re-raised without disconnecting; the other four
classes disconnect once first. -/
def except_handler (e : StickError) : Nat × Bool :=
  match e with
  | StickError.PortError => (0, true)
  | StickError.StickInitError => (1, true)
  | StickError.NetworkDown => (1, true)
  | StickError.CirclePlusError => (1, true)
  | StickError.TimeoutException => (1, true)

/-- The `try` block of `async_setup_entry` (lines 111-136): run
`connect`, `initialize_stick`, `initialize_circle_plus` in order; the
first raised exception is dispatched to `except_handler`.  The result is
(number of disconnect calls made by failure handling, whether
`ConfigEntryNotReady` was raised); `(0, false)` means setup proceeds past
the block. -/
def async_setup_entry (api_stick : Stick) : Nat × Bool :=
  match api_stick.connect with
  | some e => except_handler e
  | none =>
    match api_stick.initialize_stick with
    | some e => except_handler e
    | none =>
      match api_stick.initialize_circle_plus with
      | some e => except_handler e
      | none => (0, false)

/-- C4: a transport (`PortError`) failure of the connect stage surfaces
the retryable not-ready error with zero disconnect calls, while every
non-transport failure of a later stage (protocol initialization, network
down, coordinator discovery, timeout) makes exactly one disconnect call
before the retryable not-ready error is surfaced. -/
theorem setup_disconnect_discipline :
    ∀ s : Stick,
      (s.connect = some StickError.PortError →
        async_setup_entry s = (0, true)) ∧
      (∀ e, s.connect = none → s.initialize_stick = some e →
        e ≠ StickError.PortError → async_setup_entry s = (1, true)) ∧
      (∀ e, s.connect = none → s.initialize_stick = none →
        s.initialize_circle_plus = some e →
        e ≠ StickError.PortError → async_setup_entry s = (1, true)) := by
  intro s
  refine ⟨?_, ?_, ?_⟩
  · intro h
    simp [async_setup_entry, h, except_handler]
  · intro e h1 h2 hne
    cases e <;> simp_all [async_setup_entry, except_handler]
  · intro e h1 h2 h3 hne
    cases e <;> simp_all [async_setup_entry, except_handler]

/-- Witness for C4: a connect-stage transport failure makes no disconnect
call; a stick-initialization failure after a successful connect makes
exactly one. -/
theorem setup_disconnect_discipline_witness :
    async_setup_entry ⟨some StickError.PortError, none, none⟩ = (0, true) ∧
    async_setup_entry ⟨none, some StickError.StickInitError, none⟩ = (1, true) :=
  ⟨(setup_disconnect_discipline ⟨some StickError.PortError, none, none⟩).1 rfl,
   (setup_disconnect_discipline ⟨none, some StickError.StickInitError, none⟩).2.1
     StickError.StickInitError rfl rfl (by decide)⟩

/-- Python `str.replace(old, new)` on character lists: scan left to
right, replacing every non-overlapping occurrence of `old`.  The fuel
argument (instantiated with the string's length by `str_replace`) only
makes the recursion structural; each step consumes at least one
character, so the fuel never runs out. -/
def replace_go : Nat → List Char → List Char → List Char → List Char
  | 0, _, _, s => s
  | Nat.succ _, _, _, [] => []
  | Nat.succ fuel, old, new, c :: rest =>
    if old ≠ [] ∧ old.isPrefixOf (c :: rest) then
      new ++ replace_go fuel old new ((c :: rest).drop old.length)
    else
      c :: replace_go fuel old new rest

/-- Python `s.replace(old, new)`. -/
def str_replace (s old new : String) : String :=
  ⟨replace_go s.data.length old.data new.data s.data⟩

/-- Python `s.endswith(suffix)`. -/
def str_ends_with (s suffix : String) : Bool :=
  suffix.data.isSuffixOf s.data

/-- The conversion table of unique-ID suffixes of
`async_migrate_entity_entry` (plugwise_usb/__init__.py lines 205-213),
in source order. -/
def uid_migration_table : List (String × String) :=
  [("last_second", "power_1s"),
   ("last_8_seconds", "power_8s"),
   ("day_consumption", "energy_consumption_today"),
   ("rtt", "ping"),
   ("rssi_in", "RSSI_in"),
   ("rssi_out", "RSSI_out"),
   ("relay_state", "relay")]

/-- The `for old, new in (...)` loop of `async_migrate_entity_entry`:
return on the first table entry whose `old` the unique ID ends with,
rewriting with `unique_id.replace(old, new)`. -/
def migrate_go : List (String × String) → String → Option String
  | [], _ => none
  | (old, new) :: rest, unique_id =>
    if str_ends_with unique_id old then
      some (str_replace unique_id old new)
    else
      migrate_go rest unique_id

/-- `async_migrate_entity_entry` (plugwise_usb/__init__.py lines
197-220) restricted to its one input, the entry's `unique_id`: `some`
carries the `new_unique_id` of the returned update dict, `none` is the
`return None` (no migration needed). -/
def async_migrate_entity_entry (unique_id : String) : Option String :=
  migrate_go uid_migration_table unique_id

/-- Modelled from the spec's words, for comparison with
`async_migrate_entity_entry`: the first matching table entry triggers a
rewrite of the identifier's SUFFIX substring only (the leading part of
the identifier is kept verbatim). -/
def migrate_suffix_only (unique_id : String) : Option String :=
  (uid_migration_table.find? (fun p => str_ends_with unique_id p.1)).map
    (fun p => ⟨unique_id.data.take (unique_id.data.length - p.1.data.length) ++ p.2.data⟩)

/-- The migration loop returns on the FIRST table entry (in table order)
whose legacy suffix the identifier ends with, applying Python's
replace-all-occurrences rewrite at that entry; no match yields no
migration. -/
theorem migrate_go_eq_find (t : List (String × String)) (unique_id : String) :
    migrate_go t unique_id =
      (t.find? (fun p => str_ends_with unique_id p.1)).map
        (fun p => str_replace unique_id p.1 p.2) := by
  induction t with
  | nil => rfl
  | cons p rest ih =>
    obtain ⟨old, new⟩ := p
    by_cases h : str_ends_with unique_id old
    · simp [migrate_go, List.find?, h]
    · simp [migrate_go, List.find?, h, ih]

/-- C5 counterexample: on the identifier `"rtt-rtt"` the code rewrites
EVERY occurrence of the matched legacy suffix `"rtt"` (Python
`str.replace`), producing `"ping-ping"`, not the suffix-substring-only
rewrite `"rtt-ping"` the claim describes. -/
theorem migrate_suffix_rewrite_cex :
    async_migrate_entity_entry "rtt-rtt" = some "ping-ping" ∧
    migrate_suffix_only "rtt-rtt" = some "rtt-ping" ∧
    async_migrate_entity_entry "rtt-rtt" ≠ migrate_suffix_only "rtt-rtt" :=
  ⟨by decide, by decide, by decide⟩

/-- C5 (amended): the migration checks the fixed table in order; the
first pair whose legacy suffix the identifier ends with triggers a
rewrite replacing every occurrence of that legacy substring in the
identifier (which coincides with a suffix rewrite when the substring
occurs only once, as in `"00:11-day_consumption"` →
`"00:11-energy_consumption_today"`); an identifier ending with no legacy
suffix is returned unchanged (no migration). -/
theorem migrate_first_match_replaces_all :
    (∀ unique_id : String,
        async_migrate_entity_entry unique_id =
          (uid_migration_table.find? (fun p => str_ends_with unique_id p.1)).map
            (fun p => str_replace unique_id p.1 p.2)) ∧
    (∀ unique_id : String,
        (∀ p ∈ uid_migration_table, str_ends_with unique_id p.1 = false) →
        async_migrate_entity_entry unique_id = none) ∧
    async_migrate_entity_entry "00:11-day_consumption"
      = some "00:11-energy_consumption_today" := by
  refine ⟨fun unique_id => migrate_go_eq_find uid_migration_table unique_id,
    ?_, by decide⟩
  intro unique_id h
  rw [async_migrate_entity_entry, migrate_go_eq_find]
  have hfind : uid_migration_table.find? (fun p => str_ends_with unique_id p.1) = none :=
    List.find?_eq_none.mpr (fun p hp => by simp [h p hp])
  rw [hfind]
  rfl

/-- Witness for C5 (amended): an identifier ending with no legacy suffix
is left unmigrated. -/
theorem migrate_first_match_replaces_all_witness :
    async_migrate_entity_entry "00:11-bogus" = none :=
  migrate_first_match_replaces_all.2.1 "00:11-bogus" (by decide)

/-- Modelled from the spec: `SEVERITIES`, imported from `const.py`, is
not among the sources.  The spec fixes an enumerated severity set whose
uppercased members key the grouped view and whose `"other"` member
receives unrecognized tags; upstream defines the set as below. -/
def SEVERITIES : List String := ["other", "info", "warning", "error"]

/-- The normalization `if msg_type not in SEVERITIES: msg_type = "other"`
(smile_helpers.py line 62). -/
def normalize_severity (msg_type : String) : String :=
  if msg_type ∈ SEVERITIES then msg_type else "other"

/-- Python `str.upper()` on ASCII text. -/
def str_upper (s : String) : String :=
  ⟨s.data.map Char.toUpper⟩

/-- The attribute key `f"{severity.upper()}_msg"` (lines 56 and 63). -/
def sev_key (severity : String) : String :=
  str_upper severity ++ "_msg"

/-- Python `str.title()` on ASCII text: an alphabetic character is
uppercased at the start of an alphabetic run and lowercased elsewhere in
the run. -/
def title_go : Bool → List Char → List Char
  | _, [] => []
  | prev_alpha, c :: rest =>
    if c.isAlpha then
      (if prev_alpha then c.toLower else c.toUpper) :: title_go true rest
    else
      c :: title_go false rest

/-- Python `s.title()`. -/
def str_title (s : String) : String :=
  ⟨title_go false s.data⟩

/-- The reset loop `for severity in SEVERITIES:
self._attributes[f"{severity.upper()}_msg"] = []` (lines 55-56). -/
def init_attributes : List (String × List String) :=
  SEVERITIES.map (fun severity => (sev_key severity, []))

/-- Python `d[key].append(msg)` on a dict of lists: append at the first
binding of `key`.  The `[]` arm is unreachable from
`extra_state_attributes` — normalization keeps the key among the
initialized severity keys (Python would raise a `KeyError` there). -/
def append_at (key msg : String) : List (String × List String) → List (String × List String)
  | [] => []
  | (k, msgs) :: rest =>
    if k == key then (k, msgs ++ [msg]) :: rest
    else (k, msgs) :: append_at key msg rest

/-- Python `d[key] = val` on a dict: overwrite the first binding of `key`
in place, else append a new binding at the end. -/
def dset (key val : String) : List (String × String) → List (String × String)
  | [] => [(key, val)]
  | (k, v) :: rest =>
    if k == key then (k, val) :: rest
    else (k, v) :: dset key val rest

/-- The per-id string `f"{msg_type.title()}: {msg}"` (line 64), with
`msg_type` already normalized by line 62. -/
def notify_msg (msg_type msg : String) : String :=
  str_title (normalize_severity msg_type) ++ ": " ++ msg

/-- One `(msg_type, msg)` iteration of the inner loop, restricted to the
`_attributes` accumulator:
`self._attributes[f"{msg_type.upper()}_msg"].append(msg)` (line 63). -/
def attributes_step (attrs : List (String × List String)) (entry : String × String) :
    List (String × List String) :=
  append_at (sev_key (normalize_severity entry.1)) entry.2 attrs

/-- The nested loop `for notify_id, details in notify.items(): for
msg_type, msg in details.items()` (lines 59-64), restricted to the
`_attributes` accumulator.  The source loop updates its two accumulators
independently, so it is embedded as one fold per accumulator over the
same iteration order. -/
def build_attributes (notify : List (String × List (String × String))) :
    List (String × List String) :=
  notify.foldl (fun attrs details => details.2.foldl attributes_step attrs) init_attributes

/-- The same nested loop restricted to the `_notification` accumulator:
`self._notification[notify_id] = f"{msg_type.title()}: {msg}"`
(line 64). -/
def build_notification (notify : List (String × List (String × String))) :
    List (String × String) :=
  notify.foldl
    (fun notif details =>
      details.2.foldl
        (fun notif entry => dset details.1 (notify_msg entry.1 entry.2) notif) notif)
    []

/-- `GWBinarySensor.extra_state_attributes` (smile_helpers.py lines
50-67) together with the `_notification` map it fills, returned by the
`notification` property (lines 69-72).  The input is
`self._data[0].get("notifications")`; the first component is the
property's return value, with `none` embedding the `return None` taken
when `notify` is falsy (absent key, `None` value or empty dict); the
second component is the `_notification` map after the evaluation. -/
def extra_state_attributes
    (notifications : Option (List (String × List (String × String)))) :
    Option (List (String × List String)) × List (String × String) :=
  match notifications with
  | none => (none, [])
  | some notify =>
    if notify.isEmpty then (none, [])
    else (some (build_attributes notify), build_notification notify)

/-- All `(msg_type, msg)` pairs of a notification mapping, in iteration
order. -/
def severity_entries (notify : List (String × List (String × String))) :
    List (String × String) :=
  (notify.map (fun details => details.2)).flatten

/-- All `(notify_id, (msg_type, msg))` triples of a notification
mapping, in iteration order. -/
def id_entries (notify : List (String × List (String × String))) :
    List (String × String × String) :=
  (notify.map (fun details => details.2.map (fun entry => (details.1, entry)))).flatten

theorem dget_append_at_self :
    ∀ (attrs : List (String × List String)) (key msg : String) (msgs : List String),
      dget attrs key = some msgs →
      dget (append_at key msg attrs) key = some (msgs ++ [msg]) := by
  intro attrs key msg
  induction attrs with
  | nil => intro msgs h; simp [dget] at h
  | cons p rest ih =>
    intro msgs h
    obtain ⟨k, ms⟩ := p
    by_cases hk : k == key
    · simp [append_at, hk, dget] at h ⊢
      simp [h]
    · simp [append_at, hk, dget] at h ⊢
      exact ih msgs h

theorem dget_append_at_ne :
    ∀ (attrs : List (String × List String)) (key msg key' : String),
      key' ≠ key →
      dget (append_at key msg attrs) key' = dget attrs key' := by
  intro attrs key msg key' hne
  induction attrs with
  | nil => rfl
  | cons p rest ih =>
    obtain ⟨k, ms⟩ := p
    by_cases hk : k == key
    · have hk' : (k == key') = false := by
        simp only [beq_iff_eq] at hk
        simp [hk, Ne.symm hne]
      simp [append_at, hk, dget, hk']
    · simp [append_at, hk, dget, ih]

theorem isSome_dget_append_at :
    ∀ (attrs : List (String × List String)) (key msg key' : String),
      (dget (append_at key msg attrs) key').isSome = (dget attrs key').isSome := by
  intro attrs key msg key'
  induction attrs with
  | nil => rfl
  | cons p rest ih =>
    obtain ⟨k, ms⟩ := p
    by_cases hk : k == key
    · by_cases hk' : k == key' <;> simp [append_at, hk, dget, hk']
    · by_cases hk' : k == key' <;> simp [append_at, hk, dget, hk', ih]

theorem normalize_severity_mem (msg_type : String) :
    normalize_severity msg_type ∈ SEVERITIES := by
  unfold normalize_severity
  split
  · assumption
  · decide

theorem sev_key_inj :
    ∀ s ∈ SEVERITIES, ∀ t ∈ SEVERITIES, sev_key s = sev_key t → s = t := by
  decide

theorem dget_foldl_attributes :
    ∀ (entries : List (String × String)) (attrs : List (String × List String))
      (severity : String) (msgs : List String),
      severity ∈ SEVERITIES →
      (∀ s, s ∈ SEVERITIES → (dget attrs (sev_key s)).isSome = true) →
      dget attrs (sev_key severity) = some msgs →
      dget (entries.foldl attributes_step attrs) (sev_key severity) =
        some (msgs ++ (entries.filter
          (fun entry => normalize_severity entry.1 == severity)).map
            (fun entry => entry.2)) := by
  intro entries
  induction entries with
  | nil => intro attrs severity msgs hmem hinv h; simpa using h
  | cons e rest ih =>
    intro attrs severity msgs hmem hinv h
    have hnm : normalize_severity e.1 ∈ SEVERITIES := normalize_severity_mem e.1
    have hinv1 : ∀ s, s ∈ SEVERITIES →
        (dget (attributes_step attrs e) (sev_key s)).isSome = true := by
      intro s hs
      rw [attributes_step, isSome_dget_append_at]
      exact hinv s hs
    by_cases hcase : normalize_severity e.1 = severity
    · have h1 : dget (attributes_step attrs e) (sev_key severity) = some (msgs ++ [e.2]) := by
        rw [attributes_step, hcase]
        exact dget_append_at_self attrs (sev_key severity) e.2 msgs h
      have h2 := ih (attributes_step attrs e) severity (msgs ++ [e.2]) hmem hinv1 h1
      rw [List.foldl_cons, h2, List.filter_cons_of_pos (by simp [hcase]), List.map_cons]
      simp
    · have hne : sev_key severity ≠ sev_key (normalize_severity e.1) := by
        intro heq
        exact hcase (sev_key_inj _ hnm _ hmem heq.symm)
      have h1 : dget (attributes_step attrs e) (sev_key severity) = some msgs := by
        rw [attributes_step, dget_append_at_ne attrs _ e.2 _ hne]
        exact h
      have h2 := ih (attributes_step attrs e) severity msgs hmem hinv1 h1
      rw [List.foldl_cons, h2, List.filter_cons_of_neg (by simp [hcase])]

theorem build_attributes_eq (notify : List (String × List (String × String))) :
    build_attributes notify = (severity_entries notify).foldl attributes_step init_attributes := by
  suffices h : ∀ (l : List (String × List (String × String)))
      (a : List (String × List String)),
      l.foldl (fun attrs details => details.2.foldl attributes_step attrs) a
        = ((l.map (fun details => details.2)).flatten).foldl attributes_step a by
    exact h notify init_attributes
  intro l
  induction l with
  | nil => intro a; rfl
  | cons d rest ih =>
    intro a
    simp only [List.foldl_cons, List.map_cons, List.flatten_cons, List.foldl_append]
    exact ih (d.2.foldl attributes_step a)

/-- C6: with zero notifications (absent key, None value or empty dict)
the grouped-by-severity view is absent (None); with notifications
present, the produced mapping has an entry keyed `"<SEVERITY>_msg"` for
every severity of the fixed set (possibly the empty list), holding the
ordered messages whose normalized tag is that severity; and every
unrecognized tag normalizes to `"other"`, so its messages land in the
`"OTHER_msg"` bucket. -/
theorem grouped_notification_view :
    (∀ notifications, (notifications = none ∨ notifications = some []) →
        (extra_state_attributes notifications).1 = none) ∧
    (∀ notify : List (String × List (String × String)), notify ≠ [] →
        (extra_state_attributes (some notify)).1 = some (build_attributes notify) ∧
        (∀ severity, severity ∈ SEVERITIES →
          dget (build_attributes notify) (sev_key severity) =
            some (((severity_entries notify).filter
              (fun entry => normalize_severity entry.1 == severity)).map
                (fun entry => entry.2)))) ∧
    (∀ msg_type : String, msg_type ∉ SEVERITIES →
        normalize_severity msg_type = "other") := by
  refine ⟨?_, ?_, ?_⟩
  · intro notifications h
    rcases h with h | h <;> rw [h] <;> rfl
  · intro notify hne
    constructor
    · match notify, hne with
      | d :: rest, _ => rfl
    · intro severity hmem
      rw [build_attributes_eq]
      have hinit0 : ∀ s ∈ SEVERITIES, dget init_attributes (sev_key s) = some [] := by
        decide
      have hinit : dget init_attributes (sev_key severity) = some [] :=
        hinit0 severity hmem
      have hinv : ∀ s, s ∈ SEVERITIES →
          (dget init_attributes (sev_key s)).isSome = true := by decide
      have h := dget_foldl_attributes (severity_entries notify) init_attributes
        severity [] hmem hinv hinit
      simpa using h
  · intro msg_type h
    simp [normalize_severity, h]

/-- Witness for C6: no data gives no view; one notification with the
unrecognized tag `"strange"` is bucketed under `"OTHER_msg"`. -/
theorem grouped_notification_view_witness :
    (extra_state_attributes none).1 = none ∧
    dget (build_attributes [("n1", [("strange", "boom")])]) "OTHER_msg"
      = some ["boom"] ∧
    normalize_severity "strange" = "other" :=
  ⟨grouped_notification_view.1 none (Or.inl rfl),
   by
     have h := (grouped_notification_view.2.1 [("n1", [("strange", "boom")])]
       (by decide)).2 "other" (by decide)
     simpa using h,
   grouped_notification_view.2.2 "strange" (by decide)⟩

theorem dget_dset_self :
    ∀ (notif : List (String × String)) (key val : String),
      dget (dset key val notif) key = some val := by
  intro notif key val
  induction notif with
  | nil => simp [dset, dget]
  | cons p rest ih =>
    obtain ⟨k, v⟩ := p
    by_cases hk : k == key <;> simp [dset, hk, dget, ih]

theorem dget_dset_ne :
    ∀ (notif : List (String × String)) (key val key' : String),
      key' ≠ key →
      dget (dset key val notif) key' = dget notif key' := by
  intro notif key val key' hne
  induction notif with
  | nil => simp [dset, dget, Ne.symm hne]
  | cons p rest ih =>
    obtain ⟨k, v⟩ := p
    by_cases hk : k == key
    · have hk2 : k = key := by simpa [beq_iff_eq] using hk
      have hk' : (k == key') = false := by simp [hk2, Ne.symm hne]
      simp [dset, hk, dget, hk']
    · simp [dset, hk, dget, ih]

theorem build_notification_eq (notify : List (String × List (String × String))) :
    build_notification notify =
      (id_entries notify).foldl
        (fun notif e => dset e.1 (notify_msg e.2.1 e.2.2) notif) [] := by
  suffices h : ∀ (l : List (String × List (String × String)))
      (n : List (String × String)),
      l.foldl
        (fun notif details =>
          details.2.foldl
            (fun notif entry => dset details.1 (notify_msg entry.1 entry.2) notif) notif) n
        = ((l.map (fun details => details.2.map (fun entry => (details.1, entry)))).flatten).foldl
            (fun notif e => dset e.1 (notify_msg e.2.1 e.2.2) notif) n by
    exact h notify []
  intro l
  induction l with
  | nil => intro n; rfl
  | cons d rest ih =>
    intro n
    simp only [List.foldl_cons, List.map_cons, List.flatten_cons, List.foldl_append,
      List.foldl_map]
    exact ih _

theorem dget_foldl_notification :
    ∀ (evs : List (String × String × String)) (n : List (String × String))
      (notify_id : String),
      dget (evs.foldl (fun notif e => dset e.1 (notify_msg e.2.1 e.2.2) notif) n) notify_id =
        ((evs.reverse.find? (fun e => e.1 == notify_id)).map
          (fun e => notify_msg e.2.1 e.2.2)).or (dget n notify_id) := by
  intro evs
  induction evs with
  | nil => intro n notify_id; rfl
  | cons e rest ih =>
    intro n notify_id
    rw [List.foldl_cons, ih, List.reverse_cons, List.find?_append]
    cases hfind : rest.reverse.find? (fun e => e.1 == notify_id) with
    | some a => simp [Option.or]
    | none =>
      by_cases he : e.1 == notify_id
      · have he2 : e.1 = notify_id := by simpa [beq_iff_eq] using he
        simp [List.find?, he, Option.or, he2, dget_dset_self]
      · have he2 : notify_id ≠ e.1 := by
          intro h
          simp [h] at he
        simp [List.find?, he, Option.or, dget_dset_ne n e.1 _ notify_id he2]

/-- C7: the per-notification-id formatted view maps a notification id to
`f"{msg_type.title()}: {msg}"` of the entry for that id processed LAST
(last write wins over the per-id dict), and to nothing when the id never
occurs; concretely, an id carrying both an `info` and a later `warning`
entry is mapped to the title-cased warning string. -/
theorem notification_last_write_wins :
    (∀ (notify : List (String × List (String × String))) (notify_id : String),
        dget (extra_state_attributes (some notify)).2 notify_id =
          ((id_entries notify).reverse.find? (fun e => e.1 == notify_id)).map
            (fun e => notify_msg e.2.1 e.2.2)) ∧
    dget (extra_state_attributes
        (some [("n1", [("info", "a"), ("warning", "b")])])).2 "n1"
      = some "Warning: b" := by
  constructor
  · intro notify notify_id
    match notify with
    | [] => rfl
    | d :: rest =>
      have h : (extra_state_attributes (some (d :: rest))).2
          = build_notification (d :: rest) := rfl
      rw [h, build_notification_eq, dget_foldl_notification]
      simp
  · decide

end Plugwise
